import Mathlib

/-!
Shallow embedding of the HAPSIS avionics firmware core
(`src/lib.rs`, `src/main.rs`): bounded channels, the producer overflow
policy, the altitude moving-average filter, the control task cycle and the
logging task cycle. Machine floats (`f32`) are modelled as real numbers;
the `u16` logging counter is a natural number reduced modulo 2^16 at each
increment, mirroring wrapping machine arithmetic.
-/

namespace Hapsis

/-- `BaroData` from `src/lib.rs`: time-stamped barometer sample.
`pressure`/`temperature` are `f32` (modelled as ℝ), `time_stamp` a `u32`. -/
structure BaroData where
  pressure : ℝ
  temperature : ℝ
  time_stamp : ℕ

/-- `ImuData` from `src/lib.rs`: time-stamped 9-axis inertial sample. -/
structure ImuData where
  acceleration : ℝ × ℝ × ℝ
  gyro : ℝ × ℝ × ℝ
  mag : ℝ × ℝ × ℝ
  time_stamp : ℕ

/-- All three static channels in `src/main.rs` are declared with capacity 4
(`Channel<ThreadModeRawMutex, _, 4>`). -/
def CHANNEL_CAP : ℕ := 4

/-- An embassy bounded channel's queue, front of the list = oldest element
(FIFO). `try_send`: enqueue if below capacity, otherwise fail with `Full`
(`none`) leaving the queue untouched; never suspends. -/
def try_send (cap : ℕ) (ch : List α) (v : α) : Option (List α) :=
  if ch.length < cap then some (ch ++ [v]) else none

/-- `Channel::clear`: synchronously discard every queued value. -/
def clear (_ch : List α) : List α := []

/-- `try_receive`: dequeue the oldest element, or fail with `Empty`
(`none`) on an empty queue; never suspends. -/
def try_receive (ch : List α) : Option (α × List α) :=
  match ch with
  | [] => none
  | x :: t => some (x, t)

/-- `send(v).with_timeout(d)`: the first poll of the send future runs
synchronously; if the queue has room the send completes at once.
Otherwise the task suspends, and `none` models the timeout window closing
before a receiver frees a slot (in this firmware the operation is only
ever invoked right after `clear`, so the queue always has room). -/
def send_with_timeout (cap : ℕ) (ch : List α) (v : α) : Option (List α) :=
  if ch.length < cap then some (ch ++ [v]) else none

/-- The producer-side publish step shared by `baro_task` (both channels)
and `imu_task` in `src/main.rs`: `try_send`; on `Full`, `clear()` the
channel and make one `send(..).with_timeout(..)` attempt, discarding the
result (`.ok()`), so on timeout the sample is dropped and the channel is
left as the cleared queue. -/
def publish (cap : ℕ) (ch : List α) (v : α) : List α :=
  match try_send cap ch v with
  | some ch1 => ch1
  | none =>
    match send_with_timeout cap (clear ch) v with
    | some ch2 => ch2
    | none => clear ch

/-- Timeout passed to `with_timeout` for `BARO_DATA_CHANNEL` (ms). -/
def BARO_SEND_TIMEOUT_MS : ℕ := 200

/-- Timeout passed to `with_timeout` for `BARO_ALT_CHANNEL` (ms). -/
def ALT_SEND_TIMEOUT_MS : ℕ := 200

/-- Timeout passed to `with_timeout` for `IMU_DATA_CHANNEL` (ms). -/
def IMU_SEND_TIMEOUT_MS : ℕ := 50

/-- The fake barometer sample built each cycle of `baro_task`. -/
def fake_baro_data (ts : ℕ) : BaroData :=
  { pressure := 1013.25, temperature := 25, time_stamp := ts }

/-- The fake inertial sample built each cycle of `imu_task`. -/
def fake_imu_data (ts : ℕ) : ImuData :=
  { acceleration := (0, 0, 9.81), gyro := (0, 0, 0), mag := (0, 0, 0),
    time_stamp := ts }

/-- `embassy_stm32::gpio::Level`: the two logic levels of a digital pin. -/
inductive Level where
  | low : Level
  | high : Level
deriving DecidableEq

/-- In `main`, the LED output is constructed with `Level::High`. -/
def LED_INIT : Level := Level.high

/-- Fixed inter-cycle delay of `control_task` (ms). -/
def CONTROL_PERIOD_MS : ℕ := 100

/-- One cycle of `control_task` in `src/main.rs`: call `led.set_low()`
(unconditionally driving the pin low), then one non-blocking
`try_receive` on `BARO_ALT_CHANNEL`, logging the altitude if one was
ready; returns the pin level, remaining queue and consumed value. -/
def control_cycle (_led : Level) (ch : List ℝ) : Level × List ℝ × Option ℝ :=
  match try_receive ch with
  | some (a, ch1) => (Level.low, ch1, some a)
  | none => (Level.low, ch, none)

/-- Barometric formula in `baro_task`:
`44330.0 * (1.0 - powf(pressure / 1013.25, 1.0 / 5.255))`. -/
noncomputable def pressure_to_altitude (p : ℝ) : ℝ :=
  44330 * (1 - Real.rpow (p / 1013.25) (1 / 5.255))

/-- `alt_buffer.rotate_right(1)`: the last element wraps to the front,
everything else shifts one slot toward the back. -/
def rotate_right1 (l : List ℝ) : List ℝ :=
  l.drop (l.length - 1) ++ l.take (l.length - 1)

/-- `alt_buffer[0] = x`: overwrite the head slot. -/
def set_head (l : List ℝ) (x : ℝ) : List ℝ := x :: l.tail

/-- `let mut alt_buffer: [f32; 10] = [0.0; 10];` — zero-filled history. -/
def alt_buffer_init : List ℝ := List.replicate 10 0

/-- One pass of the altitude filter in `baro_task`: rotate the history
right by one, write the new altitude conversion into slot 0, and output
`alt_buffer.iter().sum() / alt_buffer.len()`. Returns the updated
history and the filtered (rolling-average) altitude. -/
noncomputable def alt_filter_step (buf : List ℝ) (p : ℝ) : List ℝ × ℝ :=
  let b1 := rotate_right1 buf
  let b2 := set_head b1 (pressure_to_altitude p)
  (b2, b2.sum / (b2.length : ℝ))

/-- The filtered outputs produced by running `alt_filter_step` over a
sequence of pressure inputs. -/
noncomputable def alt_filter_outputs (buf : List ℝ) : List ℝ → List ℝ
  | [] => []
  | p :: ps =>
    (alt_filter_step buf p).2 :: alt_filter_outputs (alt_filter_step buf p).1 ps

/-- Per-sample byte estimate added for each drained barometer sample
(`buf_index += 12`). -/
def BARO_MSG_BYTES : ℕ := 12

/-- Per-sample byte estimate added for each drained inertial sample
(`buf_index += 40`). -/
def IMU_MSG_BYTES : ℕ := 40

/-- Flush threshold in `log_task` (`if buf_index >= 256`). -/
def FLUSH_THRESHOLD : ℕ := 256

/-- `let mut buf_index: u16 = 0;` at the start of `log_task`. -/
def BUF_INDEX_INIT : ℕ := 0

/-- The `while let Ok(data) = CH.try_receive()` drain loop of `log_task`:
pop the channel until it reports `Empty`, adding `per` bytes to the `u16`
counter for every sample received (wrapping `u16` addition, mod 2^16).
Returns the drained channel and the updated counter. -/
def drain_loop (per : ℕ) : List α → ℕ → List α × ℕ
  | [], b => ([], b)
  | _ :: t, b => drain_loop per t ((b + per) % 65536)

/-- One cycle of `log_task` in `src/main.rs`: fully drain
`BARO_DATA_CHANNEL` (12 bytes each), then fully drain `IMU_DATA_CHANNEL`
(40 bytes each), then, if the counter reached 256, flush to the SD card
and subtract exactly 256. Returns the post-cycle counter and whether a
flush was triggered. -/
def log_cycle (baro : List BaroData) (imu : List ImuData) (b : ℕ) : ℕ × Bool :=
  let r1 := drain_loop BARO_MSG_BYTES baro b
  let r2 := drain_loop IMU_MSG_BYTES imu r1.2
  if FLUSH_THRESHOLD ≤ r2.2 then (r2.2 - FLUSH_THRESHOLD, true) else (r2.2, false)

/-! ## Helper lemmas -/

/-- Draining a channel empties it and adds `per` bytes per element, with
wrapping `u16` arithmetic. -/
lemma drain_loop_spec (per : ℕ) (l : List α) (b : ℕ) (hb : b < 65536) :
    drain_loop per l b = ([], (b + per * l.length) % 65536) := by
  induction l generalizing b with
  | nil => simp [drain_loop, Nat.mod_eq_of_lt hb]
  | cons x t ih =>
    rw [drain_loop, ih ((b + per) % 65536) (Nat.mod_lt _ (by norm_num))]
    refine congrArg _ ?_
    rw [Nat.mod_add_mod]
    refine congrArg (fun n => n % 65536) ?_
    simp [List.length_cons]
    ring

/-- When the drained totals stay below 2^16 the logging cycle computes the
exact (unwrapped) running total and applies the flush threshold to it. -/
lemma log_cycle_eq (baro : List BaroData) (imu : List ImuData) (b : ℕ)
    (h : b + BARO_MSG_BYTES * baro.length + IMU_MSG_BYTES * imu.length < 65536) :
    log_cycle baro imu b =
      (if FLUSH_THRESHOLD ≤ b + BARO_MSG_BYTES * baro.length + IMU_MSG_BYTES * imu.length
       then (b + BARO_MSG_BYTES * baro.length + IMU_MSG_BYTES * imu.length - FLUSH_THRESHOLD, true)
       else (b + BARO_MSG_BYTES * baro.length + IMU_MSG_BYTES * imu.length, false)) := by
  have hb : b < 65536 := by omega
  have h1 : (b + BARO_MSG_BYTES * baro.length) % 65536 =
      b + BARO_MSG_BYTES * baro.length := Nat.mod_eq_of_lt (by omega)
  have h2 : (b + BARO_MSG_BYTES * baro.length + IMU_MSG_BYTES * imu.length) % 65536 =
      b + BARO_MSG_BYTES * baro.length + IMU_MSG_BYTES * imu.length :=
    Nat.mod_eq_of_lt (by omega)
  unfold log_cycle
  rw [drain_loop_spec _ _ _ hb]
  simp only [h1]
  rw [drain_loop_spec _ _ _ (by omega)]
  simp only [h2]

/-! ## Claim theorems -/

/-- C1: in every producer task, when `try_send` fails with `Full` the task
clears the whole channel (discarding every queued value) and then makes
exactly one `send_with_timeout` attempt for the current value — with a
200 ms timeout on the barometric and altitude channels and 50 ms on the
inertial channel — and if that attempt times out the sample is dropped
silently, with no retry: the channel is left exactly as the single timed
attempt left it. -/
theorem overflow_policy_clear_then_single_timed_send :
    (BARO_SEND_TIMEOUT_MS = 200 ∧ ALT_SEND_TIMEOUT_MS = 200 ∧
      IMU_SEND_TIMEOUT_MS = 50) ∧
    ∀ {α : Type} (ch : List α) (v : α),
      try_send CHANNEL_CAP ch v = none →
      clear ch = ([] : List α) ∧
      publish CHANNEL_CAP ch v =
        (match send_with_timeout CHANNEL_CAP (clear ch) v with
         | some ch2 => ch2
         | none => clear ch) := by
  refine ⟨⟨rfl, rfl, rfl⟩, ?_⟩
  intro α ch v h
  refine ⟨rfl, ?_⟩
  unfold publish
  rw [h]
  rfl

/-- Witness for C1 at a concrete full channel. -/
theorem overflow_policy_clear_then_single_timed_send_witness :
    try_send CHANNEL_CAP [0, 1, 2, 3] 9 = none ∧
    (clear [0, 1, 2, 3] = ([] : List ℕ) ∧
      publish CHANNEL_CAP [0, 1, 2, 3] 9 =
        (match send_with_timeout CHANNEL_CAP (clear [0, 1, 2, 3]) 9 with
         | some ch2 => ch2
         | none => clear [0, 1, 2, 3])) :=
  ⟨rfl, overflow_policy_clear_then_single_timed_send.2 [0, 1, 2, 3] 9 rfl⟩

/-- C4 (code bug in the source): the control task calls `led.set_low()`
unconditionally every cycle, so starting from a Low pin level the cycle
leaves the level Low instead of inverting it — the LED is never toggled
after the first cycle, contradicting the task's own comment
(`// blink led to show alive`). -/
theorem control_led_driven_low_every_cycle :
    (control_cycle Level.low ([] : List ℝ)).1 = Level.low ∧
    (control_cycle Level.high ([] : List ℝ)).1 = Level.low ∧
    LED_INIT = Level.high :=
  ⟨rfl, rfl, rfl⟩

/-- C5: each control-task cycle performs exactly one non-blocking
`try_receive` on the filtered-altitude channel: on an empty channel it
proceeds with no value, and on a non-empty channel it consumes exactly
the oldest queued value, leaving the rest queued (at most one value
consumed per cycle, never a suspension). -/
theorem control_single_nonblocking_poll (led : Level) (ch : List ℝ) :
    (ch = [] → control_cycle led ch = (Level.low, [], none)) ∧
    (∀ a t, ch = a :: t → control_cycle led ch = (Level.low, t, some a)) := by
  constructor
  · rintro rfl
    rfl
  · rintro a t rfl
    rfl

/-- Witness for C5 on a channel holding two queued values. -/
theorem control_single_nonblocking_poll_witness :
    ([1, 2] : List ℝ) = 1 :: [2] ∧
    control_cycle Level.high [1, 2] = (Level.low, [2], some 1) :=
  ⟨rfl, (control_single_nonblocking_poll Level.high [1, 2]).2 1 [2] rfl⟩

/-- C7: for a channel at capacity, one producer send attempt under the
overflow policy either leaves the channel holding exactly the new value
and nothing else, or the timed send fails with `Timeout` and the channel
is left cleared without the new value; no third outcome. (In this code
the first branch always happens.) -/
theorem overflow_at_capacity_dichotomy {α : Type} (ch : List α) (v : α)
    (h : ch.length = CHANNEL_CAP) :
    publish CHANNEL_CAP ch v = [v] ∨
    (send_with_timeout CHANNEL_CAP (clear ch) v = none ∧
      publish CHANNEL_CAP ch v = clear ch) := by
  left
  simp [publish, try_send, send_with_timeout, clear, h, CHANNEL_CAP]

/-- Witness for C7 at a concrete full channel. -/
theorem overflow_at_capacity_dichotomy_witness :
    ([0, 1, 2, 3] : List ℕ).length = CHANNEL_CAP ∧
    (publish CHANNEL_CAP [0, 1, 2, 3] 9 = [9] ∨
      (send_with_timeout CHANNEL_CAP (clear [0, 1, 2, 3]) 9 = none ∧
        publish CHANNEL_CAP [0, 1, 2, 3] 9 = clear [0, 1, 2, 3])) :=
  ⟨rfl, overflow_at_capacity_dichotomy [0, 1, 2, 3] 9 rfl⟩

/-- C9: the `send_with_timeout` that every producer runs immediately
after `clear()` operates on an empty channel, and with no suspension
point in between it succeeds on its first poll (the channel capacity is
4 > 0), so the `Timeout` (silent-drop) branch of the overflow policy is
unreachable in this code: the cleared channel always ends up holding
exactly the fresh value. -/
theorem post_clear_timed_send_always_succeeds {α : Type} (ch : List α) (v : α) :
    clear ch = ([] : List α) ∧
    send_with_timeout CHANNEL_CAP (clear ch) v = some [v] ∧
    publish CHANNEL_CAP ch v ≠ clear ch := by
  refine ⟨rfl, rfl, ?_⟩
  by_cases hfull : ch.length < CHANNEL_CAP
  · simp [publish, try_send, clear, hfull]
  · simp only [CHANNEL_CAP] at hfull
    simp [publish, try_send, send_with_timeout, clear, hfull, CHANNEL_CAP]

/-- C2: one step of the altitude filter on a 10-slot history shifts the
history by one position (the oldest entry, slot 9, is evicted), writes
the new barometric-formula altitude into the head slot, and outputs the
arithmetic mean (sum divided by 10) of the 10 slots after insertion; the
history starts zero-filled. -/
theorem alt_filter_step_shifts_and_averages :
    alt_buffer_init = List.replicate 10 (0 : ℝ) ∧
    ∀ (p a0 a1 a2 a3 a4 a5 a6 a7 a8 a9 : ℝ),
      alt_filter_step [a0, a1, a2, a3, a4, a5, a6, a7, a8, a9] p =
        (pressure_to_altitude p :: [a0, a1, a2, a3, a4, a5, a6, a7, a8],
          (pressure_to_altitude p :: [a0, a1, a2, a3, a4, a5, a6, a7, a8]).sum / 10) := by
  refine ⟨rfl, ?_⟩
  intro p a0 a1 a2 a3 a4 a5 a6 a7 a8 a9
  simp [alt_filter_step, rotate_right1, set_head]

/-- At the reference sea-level pressure the barometric formula yields
exactly zero altitude. -/
lemma pressure_to_altitude_ref : pressure_to_altitude 1013.25 = 0 := by
  unfold pressure_to_altitude
  rw [div_self (by norm_num),
    show Real.rpow 1 (1 / 5.255) = 1 from Real.one_rpow _]
  ring

/-- Feeding the reference pressure into a zero-filled history leaves the
history zero-filled and outputs zero. -/
lemma alt_filter_step_zero :
    alt_filter_step alt_buffer_init 1013.25 = (alt_buffer_init, 0) := by
  have h : alt_buffer_init = [0, 0, 0, 0, 0, 0, 0, 0, 0, 0] := rfl
  rw [h]
  simp [alt_filter_step, rotate_right1, set_head, pressure_to_altitude_ref]

/-- C8: after 10 consecutive inputs of 1013.25 hPa starting from the
zero-filled history (the buffer fully replaced), the filtered altitude
output is exactly 0 m. -/
theorem alt_filter_zero_at_reference_pressure :
    (alt_filter_outputs alt_buffer_init (List.replicate 10 (1013.25 : ℝ))).getLast? =
      some 0 := by
  have h : List.replicate 10 (1013.25 : ℝ) =
      [1013.25, 1013.25, 1013.25, 1013.25, 1013.25,
        1013.25, 1013.25, 1013.25, 1013.25, 1013.25] := rfl
  rw [h]
  simp [alt_filter_outputs, alt_filter_step_zero]

/-- C3: after draining both channels, a flush triggers if and only if the
accumulated byte counter is at least 256, and the counter is then
decremented by exactly 256 (not reset to zero); in particular an
accumulated total of exactly 256 bytes leaves the counter at 0 and a
total of 300 bytes leaves it at 44, with one flush in each case. -/
theorem log_flush_threshold_and_residual :
    (∀ (baro : List BaroData) (imu : List ImuData) (b : ℕ),
      b + BARO_MSG_BYTES * baro.length + IMU_MSG_BYTES * imu.length < 65536 →
      ((log_cycle baro imu b).2 = true ↔
        256 ≤ b + BARO_MSG_BYTES * baro.length + IMU_MSG_BYTES * imu.length) ∧
      (256 ≤ b + BARO_MSG_BYTES * baro.length + IMU_MSG_BYTES * imu.length →
        (log_cycle baro imu b).1 =
          b + BARO_MSG_BYTES * baro.length + IMU_MSG_BYTES * imu.length - 256) ∧
      (b + BARO_MSG_BYTES * baro.length + IMU_MSG_BYTES * imu.length < 256 →
        (log_cycle baro imu b).1 =
          b + BARO_MSG_BYTES * baro.length + IMU_MSG_BYTES * imu.length)) ∧
    log_cycle (List.replicate 4 (fake_baro_data 0))
      (List.replicate 4 (fake_imu_data 0)) 0 = (208, false) ∧
    log_cycle (List.replicate 4 (fake_baro_data 0)) [] 208 = (0, true) ∧
    log_cycle [fake_baro_data 0] (List.replicate 2 (fake_imu_data 0)) 208 =
      (44, true) := by
  refine ⟨?_, rfl, rfl, rfl⟩
  intro baro imu b h
  rw [log_cycle_eq baro imu b h]
  simp only [FLUSH_THRESHOLD]
  constructor
  · split <;> simp <;> omega
  constructor
  · intro hle
    rw [if_pos hle]
  · intro hlt
    rw [if_neg (by omega)]

/-- Witness for C3 at a counter of 300 with empty channels. -/
theorem log_flush_threshold_and_residual_witness :
    300 + BARO_MSG_BYTES * ([] : List BaroData).length +
        IMU_MSG_BYTES * ([] : List ImuData).length < 65536 ∧
    (((log_cycle [] [] 300).2 = true ↔
        256 ≤ 300 + BARO_MSG_BYTES * ([] : List BaroData).length +
          IMU_MSG_BYTES * ([] : List ImuData).length) ∧
      (256 ≤ 300 + BARO_MSG_BYTES * ([] : List BaroData).length +
          IMU_MSG_BYTES * ([] : List ImuData).length →
        (log_cycle [] [] 300).1 =
          300 + BARO_MSG_BYTES * ([] : List BaroData).length +
            IMU_MSG_BYTES * ([] : List ImuData).length - 256) ∧
      (300 + BARO_MSG_BYTES * ([] : List BaroData).length +
          IMU_MSG_BYTES * ([] : List ImuData).length < 256 →
        (log_cycle [] [] 300).1 =
          300 + BARO_MSG_BYTES * ([] : List BaroData).length +
            IMU_MSG_BYTES * ([] : List ImuData).length)) :=
  ⟨by decide, log_flush_threshold_and_residual.1 [] [] 300 (by decide)⟩

/-- C6: each logging cycle fully drains the raw-barometric and inertial
channels by repeated `try_receive` until each is empty, adding 12 bytes
to the counter per barometer sample and 40 bytes per inertial sample
(wrapping `u16` arithmetic). -/
theorem log_drain_until_empty_accumulates (b : ℕ) (hb : b < 65536)
    (baro : List BaroData) (imu : List ImuData) :
    BARO_MSG_BYTES = 12 ∧ IMU_MSG_BYTES = 40 ∧
    drain_loop BARO_MSG_BYTES baro b = ([], (b + 12 * baro.length) % 65536) ∧
    drain_loop IMU_MSG_BYTES imu b = ([], (b + 40 * imu.length) % 65536) := by
  exact ⟨rfl, rfl, drain_loop_spec _ _ _ hb, drain_loop_spec _ _ _ hb⟩

/-- Witness for C6 with one sample queued on each channel. -/
theorem log_drain_until_empty_accumulates_witness :
    (0 : ℕ) < 65536 ∧
    (BARO_MSG_BYTES = 12 ∧ IMU_MSG_BYTES = 40 ∧
      drain_loop BARO_MSG_BYTES [fake_baro_data 0] 0 =
        ([], (0 + 12 * ([fake_baro_data 0] : List BaroData).length) % 65536) ∧
      drain_loop IMU_MSG_BYTES [fake_imu_data 0] 0 =
        ([], (0 + 40 * ([fake_imu_data 0] : List ImuData).length) % 65536)) :=
  ⟨by decide,
    log_drain_until_empty_accumulates 0 (by decide) [fake_baro_data 0]
      [fake_imu_data 0]⟩

/-- C10: if the byte counter is below 256 at the start of a logging cycle
and both drained channels hold at most their capacity of 4 samples, the
cycle adds at most 208 bytes, the running total never exceeds 463 (so
the `u16` counter never wraps: the drained total equals the exact sum),
and after the single subtraction of 256 at the flush check the counter is
again below 256; the counter starts at 0. -/
theorem buf_index_invariant_preserved (b : ℕ) (baro : List BaroData)
    (imu : List ImuData) (hb : b < 256) (hbaro : baro.length ≤ CHANNEL_CAP)
    (himu : imu.length ≤ CHANNEL_CAP) :
    BUF_INDEX_INIT < 256 ∧
    BARO_MSG_BYTES * baro.length + IMU_MSG_BYTES * imu.length ≤ 208 ∧
    b + BARO_MSG_BYTES * baro.length + IMU_MSG_BYTES * imu.length ≤ 463 ∧
    (drain_loop IMU_MSG_BYTES imu (drain_loop BARO_MSG_BYTES baro b).2).2 =
      b + BARO_MSG_BYTES * baro.length + IMU_MSG_BYTES * imu.length ∧
    (log_cycle baro imu b).1 < 256 := by
  simp only [BARO_MSG_BYTES, IMU_MSG_BYTES, CHANNEL_CAP, BUF_INDEX_INIT] at *
  have h208 : 12 * baro.length + 40 * imu.length ≤ 208 := by omega
  have h463 : b + 12 * baro.length + 40 * imu.length ≤ 463 := by omega
  have hlt : b + 12 * baro.length + 40 * imu.length < 65536 := by omega
  refine ⟨by omega, h208, h463, ?_, ?_⟩
  · have e1 : (drain_loop 12 baro b).2 = b + 12 * baro.length := by
      rw [drain_loop_spec 12 baro b (by omega)]
      exact Nat.mod_eq_of_lt (by omega)
    rw [e1, drain_loop_spec 40 imu (b + 12 * baro.length) (by omega)]
    show (b + 12 * baro.length + 40 * imu.length) % 65536 = _
    exact Nat.mod_eq_of_lt (by omega)
  · have := log_cycle_eq baro imu b (by
      simp only [BARO_MSG_BYTES, IMU_MSG_BYTES]
      omega)
    simp only [BARO_MSG_BYTES, IMU_MSG_BYTES, FLUSH_THRESHOLD] at this
    rw [this]
    split <;> omega

/-- Witness for C10 with both channels full. -/
theorem buf_index_invariant_preserved_witness :
    ((0 : ℕ) < 256 ∧
      (List.replicate 4 (fake_baro_data 0)).length ≤ CHANNEL_CAP ∧
      (List.replicate 4 (fake_imu_data 0)).length ≤ CHANNEL_CAP) ∧
    (BUF_INDEX_INIT < 256 ∧
      BARO_MSG_BYTES * (List.replicate 4 (fake_baro_data 0)).length +
        IMU_MSG_BYTES * (List.replicate 4 (fake_imu_data 0)).length ≤ 208 ∧
      0 + BARO_MSG_BYTES * (List.replicate 4 (fake_baro_data 0)).length +
        IMU_MSG_BYTES * (List.replicate 4 (fake_imu_data 0)).length ≤ 463 ∧
      (drain_loop IMU_MSG_BYTES (List.replicate 4 (fake_imu_data 0))
          (drain_loop BARO_MSG_BYTES (List.replicate 4 (fake_baro_data 0)) 0).2).2 =
        0 + BARO_MSG_BYTES * (List.replicate 4 (fake_baro_data 0)).length +
          IMU_MSG_BYTES * (List.replicate 4 (fake_imu_data 0)).length ∧
      (log_cycle (List.replicate 4 (fake_baro_data 0))
          (List.replicate 4 (fake_imu_data 0)) 0).1 < 256) :=
  ⟨⟨by decide, by simp [CHANNEL_CAP], by simp [CHANNEL_CAP]⟩,
    buf_index_invariant_preserved 0 (List.replicate 4 (fake_baro_data 0))
      (List.replicate 4 (fake_imu_data 0)) (by decide)
      (by simp [CHANNEL_CAP]) (by simp [CHANNEL_CAP])⟩

end Hapsis
